import Mathlib

/-!
Shallow embedding of the coinlauncher backend (src/index.js) and proofs of
the specification's claims about it.

The backend exposes four HTTP handlers over the Solana ledger and the SPL
token program:
  * `/calculate-fee`  — pure fee quote from four boolean option flags;
  * `/generate-payment` — builds an unsigned transfer (not claim-relevant);
  * `/verify-payment` — scans the most recent 50 transactions involving the
    operator wallet for a qualifying payment;
  * `/create-token`   — verifies a payment by transaction reference, then
    drives mint creation, account provisioning, supply issuance and
    optional authority revocation.

Numbers: JS numbers are modelled over `ℚ` (exact arithmetic on the values
the code manipulates); lamport balances are integers.  The JS behaviours
that matter to the control flow are kept: an out-of-bounds index into the
balance arrays yields `NaN` (modelled by `JsNum.nan`, which every ordered
comparison rejects), and `.toBase58()` on a missing account key throws a
`TypeError` (modelled by `Except.error JsErr.typeError`).  Upstream RPC
failures are modelled by `Except.error JsErr.rpcError`; `/verify-payment`
has no try/catch in the source, so such an error propagates out of the
handler, while `/create-token` catches everything into a 500 response.
-/

/-- Base58 addresses and transaction signatures are opaque strings. -/
abbrev Address := String

abbrev Signature := String

/-- Errors thrown by ledger-client calls or by JS runtime slips. -/
inductive JsErr where
  | rpcError
  | typeError
  deriving DecidableEq, Repr

/-- A JS number that may be NaN (e.g. arithmetic on a missing array slot). -/
inductive JsNum where
  | nan
  | num (q : ℚ)
  deriving DecidableEq, Repr

/-- JS `a >= b`: false whenever either side is NaN. -/
def jsGe : JsNum → JsNum → Bool
  | JsNum.num a, JsNum.num b => decide (b ≤ a)
  | _, _ => false

/-- JS `a < b`: false whenever either side is NaN. -/
def jsLt : JsNum → JsNum → Bool
  | JsNum.num a, JsNum.num b => decide (a < b)
  | _, _ => false

/-- `l[i].toBase58()` in JS: throws a TypeError when the index is out of
bounds (`undefined.toBase58()`), otherwise yields the key. -/
def jsKey (l : List Address) (i : ℕ) : Except JsErr Address :=
  match l.get? i with
  | some k => Except.ok k
  | none => Except.error JsErr.typeError

/-- `pre[0] - post[0]` in JS: NaN when either slot is missing. -/
def jsBalanceDelta (pre post : List ℤ) : JsNum :=
  match pre.get? 0, post.get? 0 with
  | some a, some b => JsNum.num ((a : ℚ) - (b : ℚ))
  | _, _ => JsNum.nan

/-- `txn.meta`: pre- and post-transaction lamport balances, indexed like the
account keys. -/
structure TxnMeta where
  preBalances : List ℤ
  postBalances : List ℤ
  deriving DecidableEq, Repr

/-- `txn.transaction.message`: the ordered account keys of the transaction. -/
structure TxnMessage where
  accountKeys : List Address
  deriving DecidableEq, Repr

/-- `txn.transaction`. -/
structure TxnInner where
  message : TxnMessage
  deriving DecidableEq, Repr

/-- A fetched transaction record; `meta` may be absent. -/
structure TxnRecord where
  transaction : TxnInner
  meta : Option TxnMeta
  deriving DecidableEq, Repr

/-- Configuration constant `DEV_WALLET` (src/index.js line 11). -/
def DEV_WALLET : Address := "86tXdBQuoD2cR9SXJMJSZLsZotkLUFqT7kZkwd9nLChm"

/-- Configuration constant `BASE_FEE_SOL = 0.08` (line 12). -/
def BASE_FEE_SOL : ℚ := 8 / 100

/-- Configuration constant `EXTRA_OPTION_FEE_SOL = 0.03` (line 13). -/
def EXTRA_OPTION_FEE_SOL : ℚ := 3 / 100

/-- `LAMPORTS_PER_SOL` from the web3 library. -/
def LAMPORTS_PER_SOL : ℚ := 1000000000

/-! ## `/calculate-fee` (lines 17-25) -/

/-- Request body of `/calculate-fee`; each flag may be absent
(`Option.none` models a JS `undefined` field). -/
structure FeeRequestBody where
  revokeMint : Option Bool
  revokeFreeze : Option Bool
  revokeMetadata : Option Bool
  customMetadata : Option Bool
  deriving DecidableEq, Repr

/-- JS truthiness of a possibly-absent boolean field: `undefined` is falsy. -/
def jsTruthy : Option Bool → Bool
  | some b => b
  | none => false

/-- The `/calculate-fee` handler body (lines 18-24): start from the base
fee and add the surcharge once per truthy flag, in source order. -/
def calculateFeeHandler (body : FeeRequestBody) : ℚ :=
  let totalFee := BASE_FEE_SOL
  let totalFee := if jsTruthy body.revokeMint then totalFee + EXTRA_OPTION_FEE_SOL else totalFee
  let totalFee := if jsTruthy body.revokeFreeze then totalFee + EXTRA_OPTION_FEE_SOL else totalFee
  let totalFee := if jsTruthy body.revokeMetadata then totalFee + EXTRA_OPTION_FEE_SOL else totalFee
  let totalFee := if jsTruthy body.customMetadata then totalFee + EXTRA_OPTION_FEE_SOL else totalFee
  totalFee

/-- Number of true flags among the four options. -/
def countTrue (a b c d : Bool) : ℕ :=
  (cond a 1 0) + (cond b 1 0) + (cond c 1 0) + (cond d 1 0)

/-! ## Reference-mode payment verification (`/create-token`, lines 76-95) -/

/-- Outcome of the reference-mode verification step of `/create-token`:
either the payment is verified or one of four distinct rejection reasons
applies (missing/incomplete record, sender, receiver, amount). -/
inductive RefDecision where
  | verified
  | invalidTxn
  | senderMismatch
  | receiverMismatch
  | amountMismatch
  deriving DecidableEq, Repr

/-- Lines 77-95 of `/create-token`: decide the fetched transaction.
A missing record or missing meta is an invalid transaction (lines 77-79);
otherwise extract sender, receiver and lamport delta (lines 82-84) — the
key reads can throw — then check sender, receiver and amount in order
(lines 87-95). -/
def refVerify (userWallet : Address) (expectedFee : ℚ) (txn : Option TxnRecord) :
    Except JsErr RefDecision :=
  match txn with
  | none => Except.ok RefDecision.invalidTxn
  | some t =>
    match t.meta with
    | none => Except.ok RefDecision.invalidTxn
    | some m => do
      let sender ← jsKey t.transaction.message.accountKeys 0
      let receiver ← jsKey t.transaction.message.accountKeys 1
      let lamports := jsBalanceDelta m.preBalances m.postBalances
      if sender ≠ userWallet then
        Except.ok RefDecision.senderMismatch
      else if receiver ≠ DEV_WALLET then
        Except.ok RefDecision.receiverMismatch
      else if jsLt lamports (JsNum.num (expectedFee * LAMPORTS_PER_SOL)) then
        Except.ok RefDecision.amountMismatch
      else
        Except.ok RefDecision.verified

/-- The 400-response message of each rejection reason (lines 78, 88, 91, 94). -/
def mismatchMessage : RefDecision → String
  | RefDecision.invalidTxn => "Invalid payment transaction."
  | RefDecision.senderMismatch => "Payment sender does not match wallet."
  | RefDecision.receiverMismatch => "Payment receiver does not match dev wallet."
  | RefDecision.amountMismatch => "Incorrect payment amount."
  | RefDecision.verified => ""

/-! ## `/verify-payment` history scan (lines 54-68) -/

/-- Lines 59-64 applied to one fetched record: skipped (false) when meta is
absent; otherwise accept iff the first account key equals the declared
wallet and the first account's balance decrease reaches the expected fee.
Reading the first key can throw when the key list is empty. -/
def scanRecordCheck (userWallet : Address) (expectedFee : ℚ) (t : TxnRecord) :
    Except JsErr Bool :=
  match t.meta with
  | none => Except.ok false
  | some m => do
      let sender ← jsKey t.transaction.message.accountKeys 0
      let lamports := jsBalanceDelta m.preBalances m.postBalances
      Except.ok (sender == userWallet && jsGe lamports (JsNum.num (expectedFee * LAMPORTS_PER_SOL)))

/-- The `for` loop of lines 57-66: fetch each signature's transaction in
order; a missing record or missing meta is skipped; the first accepted
record returns `true`; an exhausted list returns `false`.  Any thrown
error propagates (there is no try/catch in this handler). -/
def scanLoop (getTxn : Signature → Except JsErr (Option TxnRecord))
    (userWallet : Address) (expectedFee : ℚ) : List Signature → Except JsErr Bool
  | [] => Except.ok false
  | s :: rest => do
    let txn ← getTxn s
    match txn with
    | none => scanLoop getTxn userWallet expectedFee rest
    | some t => do
      let b ← scanRecordCheck userWallet expectedFee t
      if b then Except.ok true else scanLoop getTxn userWallet expectedFee rest

/-- The ledger client as seen by `/verify-payment`: the signature listing
for an address with a limit, and the per-signature transaction fetch.
Either call may fail (`rpcError`). -/
structure ScanEnv where
  getSignaturesForAddress : Address → ℕ → Except JsErr (List Signature)
  getTransaction : Signature → Except JsErr (Option TxnRecord)

/-- Response of `/verify-payment` when the handler completes. -/
structure VerifyResponse where
  status : ℕ
  paid : Bool
  deriving DecidableEq, Repr

/-- The `/verify-payment` handler (lines 54-68): list at most 50 recent
signatures involving `DEV_WALLET`, scan them, and answer 200 with the
boolean outcome.  No try/catch: a thrown error escapes the handler. -/
def verifyPaymentHandler (env : ScanEnv) (userWallet : Address) (expectedFee : ℚ) :
    Except JsErr VerifyResponse := do
  let signatures ← env.getSignaturesForAddress DEV_WALLET 50
  let paid ← scanLoop env.getTransaction userWallet expectedFee signatures
  Except.ok ⟨200, paid⟩

/-- A well-behaved ledger for the scan: `history` is the full list of
signatures involving the operator wallet, newest first; the RPC returns
the first `limit` of them; `details` is the per-signature fetch result
and never throws. -/
def goodScanEnv (history : List Signature) (details : Signature → Option TxnRecord) :
    ScanEnv :=
  ⟨fun _ limit => Except.ok (history.take limit), fun s => Except.ok (details s)⟩

/-- Pure qualification of one record, defined for records whose account-key
list is nonempty whenever meta is present (real ledger records). -/
def recordQualifies (userWallet : Address) (expectedFee : ℚ) (t : TxnRecord) : Bool :=
  match t.meta, t.transaction.message.accountKeys.head? with
  | some m, some k0 =>
    k0 == userWallet &&
      jsGe (jsBalanceDelta m.preBalances m.postBalances)
        (JsNum.num (expectedFee * LAMPORTS_PER_SOL))
  | _, _ => false

/-- Pure qualification of one signature under a detail map. -/
def sigQualifies (details : Signature → Option TxnRecord)
    (userWallet : Address) (expectedFee : ℚ) (s : Signature) : Bool :=
  match details s with
  | some t => recordQualifies userWallet expectedFee t
  | none => false

/-- Well-formedness of a detail map: every record carrying meta has at
least one account key (true of every settled ledger transaction). -/
def WellFormedDetails (details : Signature → Option TxnRecord) : Prop :=
  ∀ s t, details s = some t → t.meta.isSome = true →
    t.transaction.message.accountKeys ≠ []

/-! ## `/create-token` (lines 71-137) -/

/-- Options object of the create-token request (only the two revocation
flags are read by the handler, lines 118 and 121). -/
structure CreateOptions where
  revokeMint : Bool
  revokeFreeze : Bool
  deriving DecidableEq, Repr

/-- Request body of `/create-token` (line 72). -/
structure CreateTokenRequest where
  payerSecret : List ℕ
  name : String
  symbol : String
  decimals : ℤ
  supply : ℤ
  options : CreateOptions
  metadataURI : String
  userWallet : Address
  paymentSignature : Signature
  expectedFee : ℚ
  deriving Repr

/-- One call into the SPL token program, recorded in order. -/
inductive TokenOp where
  | createMint (payer mintAuthority freezeAuthority : Address) (decimals : ℤ)
  | getOrCreateAssociatedAccount (owner : Address)
  | mintTo (dest authority : Address) (amount : ℤ)
  | setAuthority (mint : Address) (newAuthority : Option Address)
      (authorityType : String) (current : Address)
  deriving DecidableEq, Repr

/-- Whether an op is a set-authority call. -/
def TokenOp.isSetAuthority : TokenOp → Bool
  | TokenOp.setAuthority _ _ _ _ => true
  | _ => false

/-- The external world as seen by `/create-token`: the confirmed-commitment
transaction fetch (may fail), key derivation from the secret bytes, and the
addresses the token program hands back for the new mint and the associated
token account. -/
structure CreateEnv where
  getTransactionConfirmed : Signature → Except JsErr (Option TxnRecord)
  fromSecretKey : List ℕ → Address
  freshMintAddress : Address
  assocAccountAddress : Address

/-- Outcome of `/create-token`: a rejection with an HTTP status and error
message, or a success payload (lines 127-131). -/
inductive CtOutcome where
  | reject (status : ℕ) (error : String)
  | success (mint tokenAccount : Address) (message : String)
  deriving DecidableEq, Repr

/-- The `/create-token` handler (lines 71-137): fetch the payment
transaction at confirmed commitment, run the reference-mode checks of
lines 77-95, and only on a verified payment create the mint (with both
authorities initially the payer's public key, lines 102-109), provision
the associated token account (line 112), mint the supply (line 115) and
revoke each toggled authority (lines 118-123).  The surrounding try/catch
turns any thrown error into a 500 (lines 133-136).  The second component
is the ordered list of token-program calls performed. -/
def createTokenHandler (env : CreateEnv) (req : CreateTokenRequest) :
    CtOutcome × List TokenOp :=
  match (do
      let txn ← env.getTransactionConfirmed req.paymentSignature
      refVerify req.userWallet req.expectedFee txn : Except JsErr RefDecision) with
  | Except.error _ => (CtOutcome.reject 500 "Token creation failed.", [])
  | Except.ok RefDecision.invalidTxn =>
    (CtOutcome.reject 400 "Invalid payment transaction.", [])
  | Except.ok RefDecision.senderMismatch =>
    (CtOutcome.reject 400 "Payment sender does not match wallet.", [])
  | Except.ok RefDecision.receiverMismatch =>
    (CtOutcome.reject 400 "Payment receiver does not match dev wallet.", [])
  | Except.ok RefDecision.amountMismatch =>
    (CtOutcome.reject 400 "Incorrect payment amount.", [])
  | Except.ok RefDecision.verified =>
    let payerPub := env.fromSecretKey req.payerSecret
    let ops :=
      [TokenOp.createMint payerPub payerPub payerPub req.decimals,
       TokenOp.getOrCreateAssociatedAccount payerPub,
       TokenOp.mintTo env.assocAccountAddress payerPub req.supply]
      ++ (if req.options.revokeMint then
            [TokenOp.setAuthority env.freshMintAddress none "MintTokens" payerPub]
          else [])
      ++ (if req.options.revokeFreeze then
            [TokenOp.setAuthority env.freshMintAddress none "FreezeAccount" payerPub]
          else [])
    (CtOutcome.success env.freshMintAddress env.assocAccountAddress
      "Token created successfully!", ops)

/-- The authorities of the (single) mint created during a request. -/
structure MintAuthorities where
  mintAuthority : Option Address
  freezeAuthority : Option Address
  deriving DecidableEq, Repr

/-- Effect of one token-program call on the created mint's authorities:
`createMint` establishes them, `setAuthority` overwrites the named one. -/
def applyOp (st : Option MintAuthorities) (op : TokenOp) : Option MintAuthorities :=
  match op with
  | TokenOp.createMint _ ma fa _ => some ⟨some ma, some fa⟩
  | TokenOp.setAuthority _ newAuth ty _ =>
    match st with
    | none => none
    | some s =>
      if ty = "MintTokens" then some { s with mintAuthority := newAuth }
      else if ty = "FreezeAccount" then some { s with freezeAuthority := newAuth }
      else some s
  | _ => st

/-- Mint authorities after a sequence of token-program calls. -/
def finalAuthorities (ops : List TokenOp) : Option MintAuthorities :=
  ops.foldl applyOp none

/-! ## Evaluation lemmas -/

/-- `jsBalanceDelta` on nonempty balance lists. -/
lemma jsBalanceDelta_cons (a : ℤ) (pre : List ℤ) (b : ℤ) (post : List ℤ) :
    jsBalanceDelta (a :: pre) (b :: post) = JsNum.num ((a : ℚ) - (b : ℚ)) := rfl

/-- `jsLt` on two numbers. -/
lemma jsLt_num (a b : ℚ) : jsLt (JsNum.num a) (JsNum.num b) = decide (a < b) := rfl

/-- `jsGe` on two numbers. -/
lemma jsGe_num (a b : ℚ) : jsGe (JsNum.num a) (JsNum.num b) = decide (b ≤ a) := rfl

/-- `refVerify` on a record with metadata and at least two account keys
reduces to the three checks in source order. -/
lemma refVerify_eval (u : Address) (f : ℚ) (m : TxnMeta) (k0 k1 : Address)
    (rest : List Address) :
    refVerify u f (some ⟨⟨⟨k0 :: k1 :: rest⟩⟩, some m⟩) =
      (if k0 ≠ u then Except.ok RefDecision.senderMismatch
       else if k1 ≠ DEV_WALLET then Except.ok RefDecision.receiverMismatch
       else if jsLt (jsBalanceDelta m.preBalances m.postBalances)
                (JsNum.num (f * LAMPORTS_PER_SOL)) then
         Except.ok RefDecision.amountMismatch
       else Except.ok RefDecision.verified) := rfl

/-- `scanRecordCheck` on a record with metadata and a first account key
reduces to the sender-and-amount test. -/
lemma scanRecordCheck_eval (u : Address) (f : ℚ) (k0 : Address) (ks : List Address)
    (m : TxnMeta) :
    scanRecordCheck u f ⟨⟨⟨k0 :: ks⟩⟩, some m⟩ =
      Except.ok ((k0 == u) &&
        jsGe (jsBalanceDelta m.preBalances m.postBalances)
          (JsNum.num (f * LAMPORTS_PER_SOL))) := rfl

/-! ## Claims about `/calculate-fee` -/

/-- Claim C5: for every assignment of the four boolean flags, the computed
fee equals the base fee plus the per-option surcharge times the number of
true flags; in particular the result depends only on that count. -/
theorem calculateFee_base_plus_surcharge_times_count :
    ∀ a b c d : Bool,
      calculateFeeHandler ⟨some a, some b, some c, some d⟩ =
        BASE_FEE_SOL + EXTRA_OPTION_FEE_SOL * (countTrue a b c d : ℚ) := by
  intro a b c d
  cases a <;> cases b <;> cases c <;> cases d <;>
    simp [calculateFeeHandler, jsTruthy, countTrue, BASE_FEE_SOL,
      EXTRA_OPTION_FEE_SOL] <;> norm_num

/-- Claim C10: an absent option flag is treated exactly like a false one:
whenever every flag is absent or false, the fee is exactly the base fee. -/
theorem calculateFee_base_when_flags_absent_or_false :
    ∀ a b c d : Option Bool,
      jsTruthy a = false → jsTruthy b = false →
      jsTruthy c = false → jsTruthy d = false →
      calculateFeeHandler ⟨a, b, c, d⟩ = BASE_FEE_SOL := by
  intro a b c d ha hb hc hd
  simp [calculateFeeHandler, ha, hb, hc, hd]

/-- Witness for C10 at the all-absent request body. -/
theorem calculateFee_base_when_flags_absent_or_false_witness :
    calculateFeeHandler ⟨none, none, none, none⟩ = BASE_FEE_SOL :=
  calculateFee_base_when_flags_absent_or_false none none none none rfl rfl rfl rfl

/-! ## Claims about reference-mode verification -/

/-- Claim C3: on a fetched record with metadata, reference-mode
verification succeeds iff the first account equals the declared payer, the
second equals the operator wallet, and the first account's balance
decrease is at least the declared fee — the boundary is inclusive — and a
decrease of exactly one smallest unit below the fee is rejected as an
amount mismatch. -/
theorem refVerify_verified_iff (u : Address) (f : ℚ) (k0 k1 : Address)
    (rest : List Address) (p0 q0 : ℤ) (pre post : List ℤ) :
    (refVerify u f (some ⟨⟨⟨k0 :: k1 :: rest⟩⟩, some ⟨p0 :: pre, q0 :: post⟩⟩) =
        Except.ok RefDecision.verified ↔
      k0 = u ∧ k1 = DEV_WALLET ∧
        f * LAMPORTS_PER_SOL ≤ (p0 : ℚ) - (q0 : ℚ)) ∧
    (k0 = u → k1 = DEV_WALLET →
      (p0 : ℚ) - (q0 : ℚ) = f * LAMPORTS_PER_SOL - 1 →
      refVerify u f (some ⟨⟨⟨k0 :: k1 :: rest⟩⟩, some ⟨p0 :: pre, q0 :: post⟩⟩) =
        Except.ok RefDecision.amountMismatch) := by
  simp only [refVerify_eval, jsBalanceDelta_cons, jsLt_num]
  constructor
  · constructor
    · intro h
      split_ifs at h with h1 h2 h3
      · simp at h
      · simp at h
      · simp at h
      · exact ⟨not_not.mp h1, not_not.mp h2, by
          simpa [not_lt] using h3⟩
    · rintro ⟨rfl, rfl, hle⟩
      rw [if_neg (by simp), if_neg (by simp),
        if_neg (by simp [not_lt.mpr hle])]
  · rintro rfl rfl h3
    rw [if_neg (by simp), if_neg (by simp),
      if_pos (by simp; linarith)]

/-- Witness for C3 at a concrete record: a transfer of exactly the fee
(2 SOL) from the declared payer to the operator wallet verifies, meeting
the inclusive boundary of the iff. -/
theorem refVerify_verified_iff_witness :
    refVerify "alice" 2
        (some ⟨⟨⟨["alice", DEV_WALLET]⟩⟩, some ⟨[2000000000], [0]⟩⟩) =
      Except.ok RefDecision.verified :=
  (refVerify_verified_iff "alice" 2 "alice" DEV_WALLET [] 2000000000 0
    [] []).1.mpr ⟨rfl, rfl, by norm_num [LAMPORTS_PER_SOL]⟩

/-- Claim C4: each failing condition yields its own distinct reason, in the
source's check order — a first account differing from the declared payer
gives the sender-mismatch reason regardless of receiver or amount; with a
matching sender, a second account differing from the operator wallet gives
the receiver-mismatch reason; with both matching, an insufficient balance
decrease gives the amount-mismatch reason. -/
theorem refVerify_distinct_reasons (u : Address) (f : ℚ) (k0 k1 : Address)
    (rest : List Address) (p0 q0 : ℤ) (pre post : List ℤ) :
    (k0 ≠ u →
      refVerify u f (some ⟨⟨⟨k0 :: k1 :: rest⟩⟩, some ⟨p0 :: pre, q0 :: post⟩⟩) =
        Except.ok RefDecision.senderMismatch) ∧
    (k0 = u → k1 ≠ DEV_WALLET →
      refVerify u f (some ⟨⟨⟨k0 :: k1 :: rest⟩⟩, some ⟨p0 :: pre, q0 :: post⟩⟩) =
        Except.ok RefDecision.receiverMismatch) ∧
    (k0 = u → k1 = DEV_WALLET →
      (p0 : ℚ) - (q0 : ℚ) < f * LAMPORTS_PER_SOL →
      refVerify u f (some ⟨⟨⟨k0 :: k1 :: rest⟩⟩, some ⟨p0 :: pre, q0 :: post⟩⟩) =
        Except.ok RefDecision.amountMismatch) := by
  simp only [refVerify_eval, jsBalanceDelta_cons, jsLt_num]
  refine ⟨fun h1 => ?_, fun h1 h2 => ?_, fun h1 h2 h3 => ?_⟩
  · rw [if_pos h1]
  · subst h1
    rw [if_neg (by simp), if_pos h2]
  · subst h1; subst h2
    rw [if_neg (by simp), if_neg (by simp), if_pos (by simpa using h3)]

/-- Witness for C4 at concrete records: a wrong sender (even with correct
receiver and ample amount) gives the sender-mismatch reason. -/
theorem refVerify_distinct_reasons_witness :
    refVerify "alice" 1
        (some ⟨⟨⟨["mallory", DEV_WALLET]⟩⟩, some ⟨[9000000000], [0]⟩⟩) =
      Except.ok RefDecision.senderMismatch :=
  (refVerify_distinct_reasons "alice" 1 "mallory" DEV_WALLET [] 9000000000 0
    [] []).1 (by decide)

/-! ## Claim about the relation between the two verification modes -/

/-- A record whose first account is the declared payer and whose balance
decrease covers the fee, but whose second account is not the operator
wallet. -/
def receiverMismatchTxn : TxnRecord :=
  ⟨⟨⟨["AliceWallet", "SomeOtherWallet"]⟩⟩, some ⟨[5000000000], [0]⟩⟩

/-- Counterexample to C2 as stated: the history-scan check accepts
`receiverMismatchTxn` while the reference-mode checks reject it with a
receiver mismatch, so the two modes do not decide records by the same
predicate. -/
theorem scan_accepts_where_reference_rejects :
    scanRecordCheck "AliceWallet" 1 receiverMismatchTxn = Except.ok true ∧
    refVerify "AliceWallet" 1 (some receiverMismatchTxn) =
      Except.ok RefDecision.receiverMismatch := by
  constructor
  · rw [show receiverMismatchTxn =
          (⟨⟨⟨"AliceWallet" :: ["SomeOtherWallet"]⟩⟩,
            some ⟨[5000000000], [0]⟩⟩ : TxnRecord) from rfl,
      scanRecordCheck_eval]
    norm_num [jsBalanceDelta, List.get?, jsGe, LAMPORTS_PER_SOL]
  · rw [show receiverMismatchTxn =
          (⟨⟨⟨"AliceWallet" :: "SomeOtherWallet" :: []⟩⟩,
            some ⟨[5000000000], [0]⟩⟩ : TxnRecord) from rfl,
      refVerify_eval]
    rw [if_neg (by simp), if_pos (by decide)]

/-- Amended C2: the history-scan mode decides each record with only the
sender and amount checks of reference mode — the receiver check is not
applied.  Hence every record that reference mode verifies is accepted by
the scan, but not conversely. -/
theorem scan_predicate_is_sender_and_amount (u : Address) (f : ℚ)
    (k0 : Address) (ks : List Address) (p0 q0 : ℤ) (pre post : List ℤ) :
    (scanRecordCheck u f ⟨⟨⟨k0 :: ks⟩⟩, some ⟨p0 :: pre, q0 :: post⟩⟩ =
      Except.ok ((k0 == u) &&
        decide (f * LAMPORTS_PER_SOL ≤ (p0 : ℚ) - (q0 : ℚ)))) ∧
    (refVerify u f (some ⟨⟨⟨k0 :: ks⟩⟩, some ⟨p0 :: pre, q0 :: post⟩⟩) =
        Except.ok RefDecision.verified →
      scanRecordCheck u f ⟨⟨⟨k0 :: ks⟩⟩, some ⟨p0 :: pre, q0 :: post⟩⟩ =
        Except.ok true) := by
  constructor
  · rw [scanRecordCheck_eval]
    simp [jsBalanceDelta_cons, jsGe_num]
  · intro h
    match ks with
    | [] => simp [refVerify, jsKey, bind, Except.bind] at h
    | k1 :: rest =>
      rw [refVerify_eval] at h
      rw [scanRecordCheck_eval]
      split_ifs at h with h1 h2 h3
      · simp at h
      · simp at h
      · simp at h
      · simp only [jsBalanceDelta_cons, jsGe_num]
        have hk : k0 = u := not_not.mp h1
        have hle : f * LAMPORTS_PER_SOL ≤ (p0 : ℚ) - (q0 : ℚ) := by
          simpa [jsBalanceDelta_cons, jsLt_num, not_lt] using h3
        simp [hk, hle]

/-- Witness for the amended C2 at a concrete record: a reference-verified
transfer is accepted by the history-scan check. -/
theorem scan_predicate_is_sender_and_amount_witness :
    scanRecordCheck "alice" 1
        ⟨⟨⟨"alice" :: [DEV_WALLET]⟩⟩, some ⟨(1000000000 : ℤ) :: [], (0 : ℤ) :: []⟩⟩ =
      Except.ok true :=
  (scan_predicate_is_sender_and_amount "alice" 1 "alice" [DEV_WALLET]
    1000000000 0 [] []).2
    (by rw [refVerify_eval]
        rw [if_neg (by simp), if_neg (by simp),
          if_neg (by norm_num [jsBalanceDelta_cons, jsLt_num, LAMPORTS_PER_SOL])])

/-! ## Claims about the `/verify-payment` history scan -/

/-- Claim C9: a signature in the window whose detail fetch yields no
transaction, or a transaction without metadata, is silently skipped: the
scan over the remaining signatures is unchanged, so such a record can
neither stop the scan, fail it, nor count as a match. -/
theorem scanLoop_skips_unfetchable
    (getTxn : Signature → Except JsErr (Option TxnRecord))
    (u : Address) (f : ℚ) (s : Signature) (rest : List Signature)
    (h : getTxn s = Except.ok none ∨
      ∃ t, getTxn s = Except.ok (some t) ∧ t.meta = none) :
    scanLoop getTxn u f (s :: rest) = scanLoop getTxn u f rest := by
  rcases h with h | ⟨t, h, hm⟩
  · simp [scanLoop, h, bind, Except.bind]
  · simp [scanLoop, h, hm, scanRecordCheck, bind, Except.bind]

/-- Witness for C9: a detail fetch that finds nothing leaves a
one-signature scan equal to the empty scan. -/
theorem scanLoop_skips_unfetchable_witness :
    scanLoop (fun _ => Except.ok none) "alice" 1 ["sig0"] =
      scanLoop (fun _ => Except.ok none) "alice" 1 [] :=
  scanLoop_skips_unfetchable (fun _ => Except.ok none) "alice" 1 "sig0" []
    (Or.inl rfl)

/-- On a throw-free ledger whose records are well formed, the scan loop
computes the pure any-of-the-window predicate. -/
lemma scanLoop_eval (details : Signature → Option TxnRecord)
    (u : Address) (f : ℚ) (hwf : WellFormedDetails details) :
    ∀ l : List Signature,
      scanLoop (fun s => Except.ok (details s)) u f l =
        Except.ok (l.any (sigQualifies details u f)) := by
  intro l
  induction l with
  | nil => rfl
  | cons s rest ih =>
    cases hds : details s with
    | none =>
      simp [scanLoop, hds, bind, Except.bind, ih, sigQualifies]
    | some t =>
      cases ht : t.meta with
      | none =>
        obtain ⟨⟨⟨keys⟩⟩, meta⟩ := t
        simp only [TxnRecord.meta] at ht
        subst ht
        simp [scanLoop, hds, bind, Except.bind, scanRecordCheck, ih,
          sigQualifies, recordQualifies]
      | some m =>
        obtain ⟨⟨⟨keys⟩⟩, meta⟩ := t
        simp only [TxnRecord.meta] at ht
        subst ht
        have hne := hwf s _ hds rfl
        match keys, hne with
        | k0 :: ks, _ =>
          have hq : sigQualifies details u f s =
              ((k0 == u) && jsGe (jsBalanceDelta m.preBalances m.postBalances)
                (JsNum.num (f * LAMPORTS_PER_SOL))) := by
            simp [sigQualifies, hds, recordQualifies]
          rw [scanLoop]
          simp only [hds, bind, Except.bind, scanRecordCheck_eval,
            List.any_cons, hq]
          cases hb : (k0 == u) &&
              jsGe (jsBalanceDelta m.preBalances m.postBalances)
                (JsNum.num (f * LAMPORTS_PER_SOL)) with
          | true => simp [hb]
          | false => simp [hb, ih]

/-- Claim C6: on a throw-free ledger with well-formed records, the
`/verify-payment` handler's answer is exactly whether some signature among
the first 50 of the operator wallet's history (newest first) qualifies:
only that window is examined, the first qualifying record makes the answer
true, and an exhausted window makes it false even when an older qualifying
signature exists beyond position 50. -/
theorem verifyPayment_scans_window (history : List Signature)
    (details : Signature → Option TxnRecord) (u : Address) (f : ℚ)
    (hwf : WellFormedDetails details) :
    verifyPaymentHandler (goodScanEnv history details) u f =
      Except.ok ⟨200, (history.take 50).any (sigQualifies details u f)⟩ := by
  unfold verifyPaymentHandler goodScanEnv
  simp [bind, Except.bind, scanLoop_eval details u f hwf]

/-- Witness for C6: fifty non-qualifying newer signatures push the only
qualifying payment out of the window, so the handler answers false. -/
theorem verifyPayment_scans_window_witness :
    verifyPaymentHandler
        (goodScanEnv (List.replicate 50 "old" ++ ["fresh"])
          (fun s =>
            if s = "fresh" then
              some ⟨⟨⟨"alice" :: [DEV_WALLET]⟩⟩, some ⟨[2000000000], [0]⟩⟩
            else none))
        "alice" 1 = Except.ok ⟨200, false⟩ := by
  have h := verifyPayment_scans_window (List.replicate 50 "old" ++ ["fresh"])
    (fun s =>
      if s = "fresh" then
        some ⟨⟨⟨"alice" :: [DEV_WALLET]⟩⟩, some ⟨[2000000000], [0]⟩⟩
      else none)
    "alice" 1
    (by
      intro s t h hm
      by_cases hs : s = "fresh"
      · simp [hs] at h
        subst h
        simp
      · simp [hs] at h)
  rw [h]
  rfl

/-- A ledger whose signature listing fails upstream. -/
def badScanEnv : ScanEnv :=
  ⟨fun _ _ => Except.error JsErr.rpcError, fun _ => Except.ok none⟩

/-- Counterexample to C7 as stated: when the signature listing fails
upstream, the `/verify-payment` handler does not produce any response at
all (the error escapes the handler, which has no try/catch), so the
endpoint does not answer 200 on every outcome of the ledger queries. -/
theorem verifyPayment_throws_on_upstream_failure :
    verifyPaymentHandler badScanEnv "alice" 1 =
      Except.error JsErr.rpcError := rfl

/-- Amended C7: whenever every ledger query succeeds (and records are well
formed), the handler answers 200 with a boolean `paid`, and `paid` is
false when no signature of the examined window qualifies; an upstream
failure instead escapes the handler uncaught and yields no response. -/
theorem verifyPayment_ok200_when_ledger_ok (history : List Signature)
    (details : Signature → Option TxnRecord) (u : Address) (f : ℚ)
    (hwf : WellFormedDetails details) :
    ∃ paid : Bool,
      verifyPaymentHandler (goodScanEnv history details) u f =
        Except.ok ⟨200, paid⟩ ∧
      ((∀ s ∈ history.take 50, sigQualifies details u f s = false) →
        paid = false) := by
  refine ⟨(history.take 50).any (sigQualifies details u f), ?_, ?_⟩
  · unfold verifyPaymentHandler goodScanEnv
    simp [bind, Except.bind, scanLoop_eval details u f hwf]
  · intro hnone
    rw [List.any_eq_false]
    intro s hs
    simp [hnone s hs]

/-- Witness for the amended C7: an empty detail map answers 200 with
`paid = false`. -/
theorem verifyPayment_ok200_when_ledger_ok_witness :
    verifyPaymentHandler (goodScanEnv ["sigA"] (fun _ => none)) "bob" 2 =
      Except.ok ⟨200, false⟩ := by
  obtain ⟨paid, h1, h2⟩ :=
    verifyPayment_ok200_when_ledger_ok ["sigA"] (fun _ => none) "bob" 2
      (by intro s t h hm; simp at h)
  have hp : paid = false := h2 (by intro s hs; rfl)
  rw [hp] at h1
  exact h1

/-! ## Claims about `/create-token` -/

/-- Claim C1: whenever the fetched payment record fails the verification
step for any of its reasons (missing/incomplete record, sender mismatch,
receiver mismatch, insufficient amount), the handler answers 400 with the
message naming that reason and performs no token-program call at all: no
mint creation, no account provisioning, no supply issuance.  Verification
therefore strictly precedes every minting step. -/
theorem createToken_rejects_before_minting (env : CreateEnv)
    (req : CreateTokenRequest) (txn : Option TxnRecord) (d : RefDecision)
    (hfetch : env.getTransactionConfirmed req.paymentSignature = Except.ok txn)
    (hv : refVerify req.userWallet req.expectedFee txn = Except.ok d)
    (hd : d ≠ RefDecision.verified) :
    createTokenHandler env req = (CtOutcome.reject 400 (mismatchMessage d), []) := by
  unfold createTokenHandler
  simp only [hfetch, bind, Except.bind, hv]
  cases d with
  | verified => exact absurd rfl hd
  | invalidTxn => rfl
  | senderMismatch => rfl
  | receiverMismatch => rfl
  | amountMismatch => rfl

/-- Witness for C1: a payment whose recorded sender differs from the
declared payer is rejected with the sender-mismatch message and an empty
token-program trace. -/
theorem createToken_rejects_before_minting_witness :
    createTokenHandler
        ⟨fun _ => Except.ok
            (some ⟨⟨⟨"mallory" :: [DEV_WALLET]⟩⟩, some ⟨[5000000000], [0]⟩⟩),
          fun _ => "payerPub", "mintAddr", "acctAddr"⟩
        ⟨[1, 2, 3], "Foo", "FOO", 9, 1000, ⟨false, false⟩, "uri", "alice",
          "paysig", 1⟩ =
      (CtOutcome.reject 400 "Payment sender does not match wallet.", []) :=
  createToken_rejects_before_minting
    ⟨fun _ => Except.ok
        (some ⟨⟨⟨"mallory" :: [DEV_WALLET]⟩⟩, some ⟨[5000000000], [0]⟩⟩),
      fun _ => "payerPub", "mintAddr", "acctAddr"⟩
    ⟨[1, 2, 3], "Foo", "FOO", 9, 1000, ⟨false, false⟩, "uri", "alice",
      "paysig", 1⟩
    (some ⟨⟨⟨"mallory" :: [DEV_WALLET]⟩⟩, some ⟨[5000000000], [0]⟩⟩)
    RefDecision.senderMismatch rfl
    (by rw [refVerify_eval, if_pos (by decide)])
    (by decide)

/-- Claim C8: on a verified payment the handler reports success, and the
created mint's authorities end as the flags dictate — each set revocation
flag leaves the corresponding authority `none`, an unset flag leaves it at
the caller's public identity as established at mint creation — and when
both flags are false no set-authority call is made at all. -/
theorem createToken_success_authorities (env : CreateEnv)
    (req : CreateTokenRequest) (txn : Option TxnRecord)
    (hfetch : env.getTransactionConfirmed req.paymentSignature = Except.ok txn)
    (hv : refVerify req.userWallet req.expectedFee txn =
      Except.ok RefDecision.verified) :
    (createTokenHandler env req).1 =
      CtOutcome.success env.freshMintAddress env.assocAccountAddress
        "Token created successfully!" ∧
    finalAuthorities (createTokenHandler env req).2 =
      some ⟨if req.options.revokeMint then none
            else some (env.fromSecretKey req.payerSecret),
            if req.options.revokeFreeze then none
            else some (env.fromSecretKey req.payerSecret)⟩ ∧
    (req.options.revokeMint = false → req.options.revokeFreeze = false →
      ∀ op ∈ (createTokenHandler env req).2, op.isSetAuthority = false) := by
  unfold createTokenHandler
  simp only [hfetch, bind, Except.bind, hv]
  cases hrm : req.options.revokeMint <;> cases hrf : req.options.revokeFreeze <;>
    simp [hrm, hrf, finalAuthorities, applyOp, TokenOp.isSetAuthority]

/-- Witness for C8: a correctly-addressed, sufficient payment with both
revocation flags false yields success, both authorities at the caller's
public identity, and no set-authority call. -/
theorem createToken_success_authorities_witness :
    (createTokenHandler
        ⟨fun _ => Except.ok
            (some ⟨⟨⟨"alice" :: [DEV_WALLET]⟩⟩, some ⟨[2000000000], [0]⟩⟩),
          fun _ => "alicePub", "mintAddr", "acctAddr"⟩
        ⟨[1, 2, 3], "Foo", "FOO", 9, 1000, ⟨false, false⟩, "uri", "alice",
          "paysig", 2⟩).1 =
      CtOutcome.success "mintAddr" "acctAddr" "Token created successfully!" ∧
    finalAuthorities
        (createTokenHandler
          ⟨fun _ => Except.ok
              (some ⟨⟨⟨"alice" :: [DEV_WALLET]⟩⟩, some ⟨[2000000000], [0]⟩⟩),
            fun _ => "alicePub", "mintAddr", "acctAddr"⟩
          ⟨[1, 2, 3], "Foo", "FOO", 9, 1000, ⟨false, false⟩, "uri", "alice",
            "paysig", 2⟩).2 =
      some ⟨some "alicePub", some "alicePub"⟩ := by
  have h := createToken_success_authorities
    ⟨fun _ => Except.ok
        (some ⟨⟨⟨"alice" :: [DEV_WALLET]⟩⟩, some ⟨[2000000000], [0]⟩⟩),
      fun _ => "alicePub", "mintAddr", "acctAddr"⟩
    ⟨[1, 2, 3], "Foo", "FOO", 9, 1000, ⟨false, false⟩, "uri", "alice",
      "paysig", 2⟩
    (some ⟨⟨⟨"alice" :: [DEV_WALLET]⟩⟩, some ⟨[2000000000], [0]⟩⟩)
    rfl
    (by rw [refVerify_eval, if_neg (by simp), if_neg (by simp),
          if_neg (by norm_num [jsBalanceDelta_cons, jsLt_num, LAMPORTS_PER_SOL])])
  exact ⟨h.1, h.2.1⟩
